import Mathlib

/-!
Shallow embedding of `src/gs_moex_bond_tools/script.js` (Google Apps Script
bond-lookup functions over the MOEX ISS API), together with proofs about the
field resolvers and the exposed lookup functions.

Modelling conventions:
* A JSON scalar cell is `JVal` (`null`, a rational number, or a string); the
  JS value `undefined` (absent column / out-of-range index) is `Option JVal`
  with `none`.
* JS numbers are `JNum`: a rational or `NaN`.
* A JS `Date` is `Option Nat`: `some k` is a valid date with the sortable key
  `k = year*10000 + month*100 + day`, `none` is an Invalid Date.  The feed's
  date cells are ISO `"YYYY-MM-DD"` strings (possibly with a `"T..."` time
  suffix) or null; numeric timestamps are not modelled.
* A JS exception is `Except.error msg`; each source function's `try` body is
  a `...Body` definition and the function itself applies the `catch` handler.
* The script cache stores strings; a stored string is modelled by the JSON
  value it encodes (`JVal`), since the script only ever stores
  `JSON.stringify` output (or, for the name function, a plain string).
-/

namespace GsMoex

/-- A JSON scalar value as it appears in a cell of a MOEX tabular block. -/
inductive JVal where
  | null
  | num (q : ℚ)
  | str (s : String)
  deriving DecidableEq, Repr

/-- A JS number: an actual (rational) value or NaN. -/
inductive JNum where
  | val (q : ℚ)
  | nan
  deriving DecidableEq, Repr

/-- JS truthiness of a possibly-undefined JSON value
(`undefined`, `null`, `0` and `""` are falsy). -/
def truthy : Option JVal → Bool
  | none => false
  | some JVal.null => false
  | some (JVal.num q) => q ≠ 0
  | some (JVal.str s) => s ≠ ""

/-- Whether a possibly-undefined value is `null` or `undefined`
(the values skipped by the JS `??` operator). -/
def nullish : Option JVal → Bool
  | none => true
  | some JVal.null => true
  | some _ => false

/-- The JS `??` operator. -/
def coalesce (a b : Option JVal) : Option JVal :=
  if nullish a then b else a

/-- Numeric value of a list of decimal digit characters. -/
def digitsVal (cs : List Char) : Nat :=
  cs.foldl (fun n c => 10 * n + (c.toNat - '0'.toNat)) 0

/-- JS `parseFloat` on a string: optional sign, integer digits, optional
fraction; anything without leading digits is NaN.  (Exponents and trailing
garbage of the JS builtin are not modelled; the feed's numeric strings are
plain decimal literals.) -/
def parseFloatStr (s : String) : JNum :=
  let cs := s.toList.dropWhile (· = ' ')
  let signed : Bool × List Char :=
    match cs with
    | '-' :: t => (true, t)
    | '+' :: t => (false, t)
    | _ => (false, cs)
  let ip := signed.2.takeWhile Char.isDigit
  let rest := signed.2.dropWhile Char.isDigit
  let fp :=
    match rest with
    | '.' :: t => t.takeWhile Char.isDigit
    | _ => []
  if ip = [] ∧ fp = [] then JNum.nan
  else
    let mag : ℚ := (digitsVal ip : ℚ) + (digitsVal fp : ℚ) / ((10 : ℚ) ^ fp.length)
    JNum.val (if signed.1 then -mag else mag)

/-- JS `parseFloat` on a JSON scalar (`parseFloat(null)` is NaN). -/
def parseFloat : JVal → JNum
  | JVal.num q => JNum.val q
  | JVal.str s => parseFloatStr s
  | JVal.null => JNum.nan

/-- JS `parseFloat` on a possibly-undefined value (`parseFloat(undefined)` is NaN). -/
def parseFloatU : Option JVal → JNum
  | none => JNum.nan
  | some v => parseFloat v

/-- Split a character list at every occurrence of a separator character
(the relevant behaviour of `String.prototype.split`). -/
def splitOnChar (sep : Char) : List Char → List (List Char)
  | [] => [[]]
  | c :: cs =>
    if c = sep then [] :: splitOnChar sep cs
    else
      match splitOnChar sep cs with
      | [] => [[c]]
      | g :: gs => (c :: g) :: gs

/-- Whether a character list is exactly `n` decimal digits. -/
def isDigits (cs : List Char) (n : Nat) : Bool :=
  cs.length = n ∧ cs.all Char.isDigit

/-- JS `new Date(s)` on the feed's date strings: accepts `"YYYY-MM-DD"`
(optionally followed by a `"T..."` time part, as in a serialized `Date`) with
a plausible month and day, and returns the sortable key
`year*10000 + month*100 + day`; anything else is an Invalid Date (`none`).
In particular `"0000-00-00"` is an Invalid Date. -/
def parseDate (s : String) : Option Nat :=
  match splitOnChar '-' s.toList with
  | [y, m, d0] =>
    let d := d0.takeWhile (fun c => c ≠ 'T')
    if isDigits y 4 ∧ isDigits m 2 ∧ isDigits d 2 then
      let mv := digitsVal m
      let dv := digitsVal d
      if 1 ≤ mv ∧ mv ≤ 12 ∧ 1 ≤ dv ∧ dv ≤ 31 then
        some (digitsVal y * 10000 + mv * 100 + dv)
      else none
    else none
  | _ => none

/-- JS `new Date(v)` on a JSON scalar.  `new Date(null)` is the epoch;
numeric timestamps are not modelled (the feed's date cells are strings). -/
def newDate : JVal → Option Nat
  | JVal.str s => parseDate s
  | JVal.null => some 19700101
  | JVal.num _ => none

/-- JS `new Date(v)` on a possibly-undefined value (`new Date(undefined)`
is an Invalid Date). -/
def newDateU : Option JVal → Option Nat
  | none => none
  | some v => newDate v

/-- JS `d >= today` for a Date `d` and a valid date `today`:
false when `d` is an Invalid Date. -/
def dateGe (d : Option Nat) (today : Nat) : Bool :=
  match d with
  | some x => today ≤ x
  | none => false

/-- JS `Array.prototype.indexOf` over the column-name list, as an
`Option Nat` (`none` plays the role of `-1`). -/
def colIndex (cols : List String) (name : String) : Option Nat :=
  cols.findIdx? (· = name)

/-- JS `row[i]` where `i` came from `indexOf`: `undefined` (`none`) when the
column is absent (`i = -1`) or the row is too short. -/
def cellAt (row : List JVal) (i : Option Nat) : Option JVal :=
  match i with
  | none => none
  | some n => row.get? n

/-- JS `block.data[0]` (only read after a non-emptiness check). -/
def headRow (rows : List (List JVal)) : List JVal :=
  rows.headD []

/-- One tabular block of a MOEX ISS response, with the `columns` and `data`
fields each possibly absent (the script checks them separately). -/
structure RawBlock where
  columns : Option (List String)
  data : Option (List (List JVal))
  deriving DecidableEq, Repr

/-- Parsed JSON body of the security-snapshot endpoint
(`.../bonds/securities/{ticker}.json`). -/
structure SnapshotDoc where
  marketdata : Option RawBlock
  securities : Option RawBlock
  deriving DecidableEq, Repr

/-- Parsed JSON body of the bondization endpoint
(`.../securities/{ticker}/bondization.json`). -/
structure BondizationDoc where
  coupons : Option RawBlock
  amortizations : Option RawBlock
  offers : Option RawBlock
  deriving DecidableEq, Repr

/-- Outcome of `UrlFetchApp.fetch` + `JSON.parse` for a document type `α`:
the fetch itself may throw, or return a status code together with a body
that either fails to parse as JSON (`Except.error`, a thrown exception at the
`JSON.parse` call) or parses to a document. -/
inductive FetchOutcome (α : Type) where
  | throws (msg : String)
  | resp (code : Nat) (body : Except String α)

/-- The result value of a lookup: JS `null`, a number, a `Date`, a string
(success value or error description), or the `{date, note}` object of the
nearest-event resolver.  `exception` represents an uncaught JS exception
escaping to the caller; the theorems show it is never produced. -/
inductive LookupResult where
  | null
  | num (n : JNum)
  | dateObj (d : Option Nat)
  | str (s : String)
  | obj (d : Option Nat) (note : String)
  | exception (msg : String)
  deriving DecidableEq, Repr

/-- `true` for every result that is an actual value (not an escaped
exception). -/
def isProperValue : LookupResult → Bool
  | LookupResult.exception _ => false
  | _ => true

/-- A JS `try { body } catch (e) { handler }` where the body produces a
`LookupResult`. -/
def tryCatch (body : Except String LookupResult) (handler : String → LookupResult) :
    LookupResult :=
  match body with
  | Except.ok r => r
  | Except.error m => handler m

/-! ### fetchSinglePriceInternal (script.js lines 103-147) -/

/-- The `try` body of `fetchSinglePriceInternal`.  The `??` chain evaluates
left to right, so `securities.columns` being absent only throws (a JS
`TypeError` on `undefined.indexOf`) when both marketdata operands are
nullish. -/
def fetchPriceBody (o : FetchOutcome SnapshotDoc) : Except String LookupResult :=
  match o with
  | FetchOutcome.throws m => Except.error m
  | FetchOutcome.resp code body =>
    if code ≠ 200 then Except.ok (LookupResult.str ("Ошибка API: " ++ toString code))
    else
      match body with
      | Except.error m => Except.error m
      | Except.ok data =>
        match data.marketdata, data.securities with
        | some md, some sec =>
          match md.data, sec.data with
          | some mdData, some secData =>
            if mdData.length = 0 ∨ secData.length = 0 then
              Except.ok (LookupResult.str "Тикер не найден или API вернул неполные данные")
            else
              match md.columns with
              | none => Except.error "TypeError: reading indexOf of undefined"
              | some mdCols =>
                let mdRow := headRow mdData
                let a := cellAt mdRow (colIndex mdCols "LAST")
                let b := cellAt mdRow (colIndex mdCols "CLOSEPRICE")
                if nullish (coalesce a b) = false then
                  Except.ok (LookupResult.num (parseFloatU (coalesce a b)))
                else
                  match sec.columns with
                  | none => Except.error "TypeError: reading indexOf of undefined"
                  | some secCols =>
                    let secRow := headRow secData
                    let c := cellAt secRow (colIndex secCols "PREVLEGALCLOSEPRICE")
                    let d := cellAt secRow (colIndex secCols "PREVPRICE")
                    let price := coalesce c d
                    if nullish price then
                      Except.ok (LookupResult.str "Цена не найдена")
                    else Except.ok (LookupResult.num (parseFloatU price))
          | _, _ =>
            Except.ok (LookupResult.str "Тикер не найден или API вернул неполные данные")
        | _, _ =>
          Except.ok (LookupResult.str "Тикер не найден или API вернул неполные данные")

/-- `fetchSinglePriceInternal`: the body under `try`, with
`catch (e) { return 'Ошибка скрипта'; }`. -/
def fetchSinglePriceInternal (o : FetchOutcome SnapshotDoc) : LookupResult :=
  tryCatch (fetchPriceBody o) (fun _ => LookupResult.str "Ошибка скрипта")

/-! ### fetchNextCouponInternal (lines 188-230) -/

/-- The `try` body of `fetchNextCouponInternal`. -/
def fetchNextCouponBody (o : FetchOutcome SnapshotDoc) : Except String LookupResult :=
  match o with
  | FetchOutcome.throws m => Except.error m
  | FetchOutcome.resp code body =>
    if code ≠ 200 then Except.ok (LookupResult.str ("Ошибка API: " ++ toString code))
    else
      match body with
      | Except.error m => Except.error m
      | Except.ok data =>
        match data.securities with
        | none => Except.ok (LookupResult.str "Тикер не найден")
        | some sec =>
          match sec.columns, sec.data with
          | some cols, some rows =>
            if rows.length = 0 then Except.ok (LookupResult.str "Тикер не найден")
            else
              match colIndex cols "NEXTCOUPON" with
              | none => Except.ok (LookupResult.str "Поле NEXTCOUPON отсутствует")
              | some i =>
                let cell := cellAt (headRow rows) (some i)
                if truthy cell = false ∨ cell = some (JVal.str "0000-00-00") then
                  Except.ok (LookupResult.str "Нет предстоящих купонов")
                else Except.ok (LookupResult.dateObj (newDateU cell))
          | _, _ => Except.ok (LookupResult.str "Тикер не найден")

/-- `fetchNextCouponInternal`. -/
def fetchNextCouponInternal (o : FetchOutcome SnapshotDoc) : LookupResult :=
  tryCatch (fetchNextCouponBody o) (fun _ => LookupResult.str "Ошибка скрипта")

/-! ### fetchBondNameInternal (lines 263-306) -/

/-- The JS value `name` returned by the name resolver, as a `LookupResult`
(only reached when truthy, hence a non-empty string or non-zero number). -/
def jvalToResult : Option JVal → LookupResult
  | some (JVal.str s) => LookupResult.str s
  | some (JVal.num q) => LookupResult.num (JNum.val q)
  | some JVal.null => LookupResult.null
  | none => LookupResult.null

/-- The `try` body of `fetchBondNameInternal`. -/
def fetchBondNameBody (o : FetchOutcome SnapshotDoc) : Except String LookupResult :=
  match o with
  | FetchOutcome.throws m => Except.error m
  | FetchOutcome.resp code body =>
    if code ≠ 200 then Except.ok (LookupResult.str ("Ошибка API: " ++ toString code))
    else
      match body with
      | Except.error m => Except.error m
      | Except.ok data =>
        match data.securities with
        | none => Except.ok (LookupResult.str "Тикер не найден")
        | some sec =>
          match sec.columns, sec.data with
          | some cols, some rows =>
            if rows.length = 0 then Except.ok (LookupResult.str "Тикер не найден")
            else
              let row := headRow rows
              let secNameIdx := colIndex cols "SECNAME"
              let shortNameIdx := colIndex cols "SHORTNAME"
              -- let name = null; if (secNameIndex !== -1) name = row[secNameIndex];
              let name1 : Option JVal :=
                match secNameIdx with
                | some i => cellAt row (some i)
                | none => some JVal.null
              -- if (!name && shortNameIndex !== -1) name = row[shortNameIndex];
              let name2 : Option JVal :=
                if truthy name1 = false then
                  match shortNameIdx with
                  | some i => cellAt row (some i)
                  | none => name1
                else name1
              if truthy name2 = false then
                Except.ok (LookupResult.str "Наименование не найдено")
              else Except.ok (jvalToResult name2)
          | _, _ => Except.ok (LookupResult.str "Тикер не найден")

/-- `fetchBondNameInternal`. -/
def fetchBondNameInternal (o : FetchOutcome SnapshotDoc) : LookupResult :=
  tryCatch (fetchBondNameBody o) (fun _ => LookupResult.str "Ошибка скрипта")

/-! ### fetchMaturityDateInternal (lines 420-459) -/

/-- The `try` body of `fetchMaturityDateInternal`. -/
def fetchMaturityDateBody (o : FetchOutcome SnapshotDoc) : Except String LookupResult :=
  match o with
  | FetchOutcome.throws m => Except.error m
  | FetchOutcome.resp code body =>
    if code ≠ 200 then Except.ok (LookupResult.str ("Ошибка API: " ++ toString code))
    else
      match body with
      | Except.error m => Except.error m
      | Except.ok data =>
        match data.securities with
        | none => Except.ok (LookupResult.str "Тикер не найден")
        | some sec =>
          match sec.columns, sec.data with
          | some cols, some rows =>
            if rows.length = 0 then Except.ok (LookupResult.str "Тикер не найден")
            else
              match colIndex cols "MATDATE" with
              | none => Except.ok (LookupResult.str "Поле MATDATE отсутствует")
              | some i =>
                let cell := cellAt (headRow rows) (some i)
                if truthy cell = false ∨ cell = some (JVal.str "0000-00-00") then
                  Except.ok (LookupResult.str "Дата погашения не определена")
                else Except.ok (LookupResult.dateObj (newDateU cell))
          | _, _ => Except.ok (LookupResult.str "Тикер не найден")

/-- `fetchMaturityDateInternal`. -/
def fetchMaturityDateInternal (o : FetchOutcome SnapshotDoc) : LookupResult :=
  tryCatch (fetchMaturityDateBody o) (fun _ => LookupResult.str "Ошибка скрипта")

/-! ### fetchCouponFromBondization (lines 465-544) -/

/-- One mapped coupon record: a JS Date and a JS number-or-null value. -/
structure Coupon where
  date : Option Nat
  value : Option JNum
  deriving DecidableEq, Repr

/-- The JS variable `val` after the two-branch selection in the row mapper:
`none` means `val` stayed `null`; `some c` means `val` was set to the cell
`c` (which may itself be `undefined` when the row is short, since JS
`undefined !== null`). -/
def chooseRawVal (rubIdx valIdx : Option Nat) (row : List JVal) : Option (Option JVal) :=
  let fb : Option (Option JVal) :=
    match valIdx with
    | some j => if row.get? j ≠ some JVal.null then some (row.get? j) else none
    | none => none
  match rubIdx with
  | some i => if row.get? i ≠ some JVal.null then some (row.get? i) else fb
  | none => fb

/-- The row mapper of `fetchCouponFromBondization`
(`{date: new Date(r[dateIdx]), value: val !== null ? parseFloat(val) : null}`). -/
def couponOfRow (dateIdx : Nat) (rubIdx valIdx : Option Nat) (row : List JVal) : Coupon :=
  { date := newDateU (row.get? dateIdx)
    value :=
      match chooseRawVal rubIdx valIdx row with
      | none => none
      | some c => some (parseFloatU c) }

/-- The sort comparator `(a, b) => a.date - b.date`: an Invalid Date gives
NaN, which the (stable) JS sort treats as "no reorder", modelled as `true`
both ways. -/
def couponLe (a b : Coupon) : Bool :=
  match a.date, b.date with
  | some x, some y => x ≤ y
  | _, _ => true

/-- Stable insertion of a coupon into an already-sorted suffix. -/
def insertCoupon (c : Coupon) : List Coupon → List Coupon
  | [] => [c]
  | d :: ds => if couponLe c d then c :: d :: ds else d :: insertCoupon c ds

/-- `coupons.sort((a, b) => a.date - b.date)`: JS `Array.prototype.sort` is
stable, modelled as stable insertion sort. -/
def sortCoupons : List Coupon → List Coupon
  | [] => []
  | c :: cs => insertCoupon c (sortCoupons cs)

/-- `c.value !== null && !isNaN(c.value) && c.value !== 0`. -/
def validCouponValue : Option JNum → Bool
  | some (JNum.val q) => q ≠ 0
  | _ => false

/-- The code after the scan loop: return `lastKnownValue` if it was set,
else the "coupon undetermined" string. -/
def couponScanFinish : Option ℚ → LookupResult
  | some v => LookupResult.num (JNum.val v)
  | none => LookupResult.str "Купон не определен"

/-- The scan loop of `fetchCouponFromBondization` (lines 512-540), carrying
`lastKnownValue`. -/
def couponScanAux (today : Nat) : List Coupon → Option ℚ → LookupResult
  | [], lastKnown => couponScanFinish lastKnown
  | c :: rest, lastKnown =>
    if dateGe c.date today then
      match c.value with
      | some (JNum.val q) =>
        if q ≠ 0 then LookupResult.num (JNum.val q) else couponScanFinish lastKnown
      | _ => couponScanFinish lastKnown
    else
      couponScanAux today rest
        (match c.value with
          | some (JNum.val q) => if q ≠ 0 then some q else lastKnown
          | _ => lastKnown)

/-- The stage-2 scan over the (already sorted) coupon sequence with
`lastKnownValue` initially null. -/
def couponScan (today : Nat) (coupons : List Coupon) : LookupResult :=
  couponScanAux today coupons none

/-- The `try` body of `fetchCouponFromBondization`. -/
def fetchBondizationCouponBody (o : FetchOutcome BondizationDoc) (today : Nat) :
    Except String LookupResult :=
  match o with
  | FetchOutcome.throws m => Except.error m
  | FetchOutcome.resp code body =>
    if code ≠ 200 then
      Except.ok (LookupResult.str ("Ошибка API (bondization): " ++ toString code))
    else
      match body with
      | Except.error m => Except.error m
      | Except.ok data =>
        match data.coupons with
        | none => Except.ok (LookupResult.str "Нет данных о купонах (bondization)")
        | some cb =>
          match cb.data, cb.columns with
          | some rows, some cols =>
            let dateIdx := colIndex cols "coupondate"
            let valueIdx := colIndex cols "value"
            let valueRubIdx := colIndex cols "value_rub"
            match dateIdx with
            | none => Except.ok (LookupResult.str "Нет даты купона в данных")
            | some di =>
              let coupons := sortCoupons (rows.map (couponOfRow di valueRubIdx valueIdx))
              Except.ok (couponScan today coupons)
          | _, _ => Except.ok (LookupResult.str "Нет данных о купонах (bondization)")

/-- `fetchCouponFromBondization`, with `today` (the ambient `new Date()`
with zeroed time) passed explicitly. -/
def fetchCouponFromBondization (o : FetchOutcome BondizationDoc) (today : Nat) : LookupResult :=
  tryCatch (fetchBondizationCouponBody o today)
    (fun m => LookupResult.str ("Ошибка bondization: " ++ m))

/-! ### fetchCouponValueInternal (lines 340-383) -/

/-- The `try` body of `fetchCouponValueInternal`; `bond` is the outcome the
bondization endpoint would give if stage 2 fetches it. -/
def fetchCouponValueBody (o : FetchOutcome SnapshotDoc) (bond : FetchOutcome BondizationDoc)
    (today : Nat) : Except String LookupResult :=
  match o with
  | FetchOutcome.throws m => Except.error m
  | FetchOutcome.resp code body =>
    if code ≠ 200 then Except.ok (LookupResult.str ("Ошибка API: " ++ toString code))
    else
      match body with
      | Except.error m => Except.error m
      | Except.ok data =>
        match data.securities with
        | none => Except.ok (LookupResult.str "Тикер не найден")
        | some sec =>
          match sec.columns, sec.data with
          | some cols, some rows =>
            if rows.length = 0 then Except.ok (LookupResult.str "Тикер не найден")
            else
              let row := headRow rows
              match colIndex cols "COUPONVALUE" with
              | some i =>
                let couponValue := cellAt row (some i)
                if nullish couponValue = false then
                  let val := parseFloatU couponValue
                  if val ≠ JNum.val 0 then Except.ok (LookupResult.num val)
                  else Except.ok (fetchCouponFromBondization bond today)
                else Except.ok (fetchCouponFromBondization bond today)
              | none => Except.ok (fetchCouponFromBondization bond today)
          | _, _ => Except.ok (LookupResult.str "Тикер не найден")

/-- `fetchCouponValueInternal`
(`catch (e) { return 'Ошибка скрипта: ' + e.message; }`). -/
def fetchCouponValueInternal (o : FetchOutcome SnapshotDoc) (bond : FetchOutcome BondizationDoc)
    (today : Nat) : LookupResult :=
  tryCatch (fetchCouponValueBody o bond today)
    (fun m => LookupResult.str ("Ошибка скрипта: " ++ m))

/-! ### fetchBondOptionDatesInternal (lines 588-695) -/

/-- One normalized amortization/offer event. -/
structure BondEvent where
  date : Nat
  type : String
  description : String
  deriving DecidableEq, Repr

/-- JS template-literal stringification of a cell value (string cells pass
through verbatim; number formatting is approximated). -/
def jdisplay : Option JVal → String
  | some (JVal.str s) => s
  | some (JVal.num q) => toString q
  | some JVal.null => "null"
  | none => "undefined"

/-- The events collected from the `amortizations` block (lines 609-629):
rows with a truthy `amortdate` cell whose parsed date is on-or-after today. -/
def amortEvents (blk : Option RawBlock) (today : Nat) : List BondEvent :=
  match blk with
  | some b =>
    match b.columns, b.data with
    | some cols, some rows =>
      match colIndex cols "amortdate" with
      | some di =>
        rows.filterMap (fun row =>
          let dStr := row.get? di
          if truthy dStr then
            match newDateU dStr with
            | some d =>
              if today ≤ d then
                some { date := d, type := "Амортизация"
                       description := "Амортизация: " ++ jdisplay dStr }
              else none
            | none => none
          else none)
      | none => []
    | _, _ => []
  | none => []

/-- The events collected from the `offers` block (lines 635-664): the label
is the truthy `offertype` cell if that column is present, else "Оферта". -/
def offerEvents (blk : Option RawBlock) (today : Nat) : List BondEvent :=
  match blk with
  | some b =>
    match b.columns, b.data with
    | some cols, some rows =>
      match colIndex cols "offerdate" with
      | some di =>
        let ti := colIndex cols "offertype"
        rows.filterMap (fun row =>
          let dStr := row.get? di
          if truthy dStr then
            match newDateU dStr with
            | some d =>
              if today ≤ d then
                let ty :=
                  match ti with
                  | some j => if truthy (row.get? j) then jdisplay (row.get? j) else "Оферта"
                  | none => "Оферта"
                some { date := d, type := ty, description := ty ++ ": " ++ jdisplay dStr }
              else none
            | none => none
          else none)
      | none => []
    | _, _ => []
  | none => []

/-- The comparator `(a, b) => a.date - b.date` on events (all collected
events carry valid dates). -/
def eventLe (a b : BondEvent) : Bool :=
  a.date ≤ b.date

/-- Stable insertion of an event into an already-sorted suffix. -/
def insertEvent (e : BondEvent) : List BondEvent → List BondEvent
  | [] => [e]
  | f :: fs => if eventLe e f then e :: f :: fs else f :: insertEvent e fs

/-- `events.sort((a, b) => a.date - b.date)` (stable). -/
def sortEvents : List BondEvent → List BondEvent
  | [] => []
  | e :: es => insertEvent e (sortEvents es)

/-- Helper for `new Set(...)` insertion-order de-duplication. -/
def dedupAux (seen : List String) : List String → List String
  | [] => []
  | x :: xs => if seen.contains x then dedupAux seen xs else x :: dedupAux (x :: seen) xs

/-- `[...new Set(l)]`: de-duplication keeping first occurrences in order. -/
def dedupFirst (l : List String) : List String :=
  dedupAux [] l

/-- The `try` body of `fetchBondOptionDatesInternal`. -/
def fetchBondOptionDatesBody (o : FetchOutcome BondizationDoc) (today : Nat) :
    Except String LookupResult :=
  match o with
  | FetchOutcome.throws m => Except.error m
  | FetchOutcome.resp code body =>
    if code ≠ 200 then Except.ok (LookupResult.str ("Ошибка API: " ++ toString code))
    else
      match body with
      | Except.error m => Except.error m
      | Except.ok data =>
        let events := amortEvents data.amortizations today ++ offerEvents data.offers today
        if events.length = 0 then Except.ok (LookupResult.str "Нет оферт/аморт.")
        else
          let sorted := sortEvents events
          let nearest := sorted.headD { date := 0, type := "", description := "" }
          let uniqueDescriptions := dedupFirst (sorted.map (·.description))
          let noteText :=
            String.intercalate "\n" uniqueDescriptions ++ "\n\nБлижайшая: " ++ nearest.description
          Except.ok (LookupResult.obj (some nearest.date) noteText)

/-- `fetchBondOptionDatesInternal`
(`catch (e) { return 'Ошибка скрипта: ' + e.message; }`). -/
def fetchBondOptionDatesInternal (o : FetchOutcome BondizationDoc) (today : Nat) : LookupResult :=
  tryCatch (fetchBondOptionDatesBody o today)
    (fun m => LookupResult.str ("Ошибка скрипта: " ++ m))

/-! ### The exposed lookup functions (cache facade + resolver) -/

/-- The ambient API state: what each of the two endpoints would currently
return for the looked-up ticker. -/
structure Api where
  snapshot : FetchOutcome SnapshotDoc
  bondization : FetchOutcome BondizationDoc

/-- The script cache, keyed by string.  The cache stores strings; a stored
string is modelled by the JSON value it encodes, since the script only
stores `JSON.stringify` output (or a plain string, for the name function). -/
def Cache : Type := String → Option JVal

/-- An empty cache. -/
def emptyCache : Cache := fun _ => none

/-- `cache.put(key, v, ttl)` (the TTL is time behaviour of the external
store and is not modelled). -/
def cachePut (c : Cache) (key : String) (v : JVal) : Cache :=
  fun k => if k = key then some v else c k

/-- The blank-ticker guard `!ticker || ticker.trim() === ''`: for a string
ticker this holds exactly when every character is whitespace (for a string,
`!ticker` is subsumed by the trim check). -/
def jsBlank (s : String) : Bool :=
  s.toList.all Char.isWhitespace

/-- Day key back to the ISO string `Date.prototype.toJSON` produces
(`"YYYY-MM-DDT00:00:00.000Z"`). -/
def isoOfDay (d : Nat) : String :=
  let pad2 : Nat → String := fun n => (if n < 10 then "0" else "") ++ toString n
  let y := d / 10000
  let pad4 :=
    (if y < 10 then "000" else if y < 100 then "00" else if y < 1000 then "0" else "")
      ++ toString y
  pad4 ++ "-" ++ pad2 (d / 100 % 100) ++ "-" ++ pad2 (d % 100) ++ "T00:00:00.000Z"

/-- `JSON.stringify(result)`, as the JSON value the stored string encodes:
numbers and strings pass through, a valid `Date` becomes its ISO string,
and `NaN` / an Invalid Date serialize as JSON `null`.  (The `{date, note}`
object is never cached by any caller.) -/
def serializeResult : LookupResult → JVal
  | LookupResult.num (JNum.val q) => JVal.num q
  | LookupResult.num JNum.nan => JVal.null
  | LookupResult.str s => JVal.str s
  | LookupResult.dateObj (some d) => JVal.str (isoOfDay d)
  | LookupResult.dateObj none => JVal.null
  | LookupResult.null => JVal.null
  | LookupResult.obj _ _ => JVal.null
  | LookupResult.exception _ => JVal.null

/-- `JSON.parse(cached)` returned directly to the caller
(price and coupon-value cache hits). -/
def deserializeResult : JVal → LookupResult
  | JVal.num q => LookupResult.num (JNum.val q)
  | JVal.str s => LookupResult.str s
  | JVal.null => LookupResult.null

/-- What the name function stores: `cache.put(cacheKey, result, ...)` on a
raw result, which `CacheService` coerces to a string. -/
def nameCacheVal : LookupResult → JVal
  | LookupResult.str s => JVal.str s
  | LookupResult.num (JNum.val q) => JVal.str (toString q)
  | _ => JVal.str ""

/-- `GET_MOEX_PRICE` (lines 35-51).  Returns the result together with the
cache state after the call. -/
def GET_MOEX_PRICE (c : Cache) (ticker : String) (api : Api) : LookupResult × Cache :=
  if jsBlank ticker then (LookupResult.null, c)
  else
    match c ticker with
    | some v => (deserializeResult v, c)
    | none =>
      let result := fetchSinglePriceInternal api.snapshot
      (result, cachePut c ticker (serializeResult result))

/-- `GET_NEXT_COUPON` (lines 155-181).  On a cache hit the deserialized
value is fed to the `Date` constructor when truthy, else the literal
"Нет данных" is returned. -/
def GET_NEXT_COUPON (c : Cache) (ticker : String) (api : Api) : LookupResult × Cache :=
  if jsBlank ticker then (LookupResult.null, c)
  else
    match c (ticker ++ "_coupon") with
    | some v =>
      (if truthy (some v) then LookupResult.dateObj (newDate v)
       else LookupResult.str "Нет данных", c)
    | none =>
      let result := fetchNextCouponInternal api.snapshot
      (result, cachePut c (ticker ++ "_coupon") (serializeResult result))

/-- `GET_MOEX_NAME` (lines 238-256).  The cache hit returns the cached
string verbatim. -/
def GET_MOEX_NAME (c : Cache) (ticker : String) (api : Api) : LookupResult × Cache :=
  if jsBlank ticker then (LookupResult.null, c)
  else
    match c (ticker ++ "_name") with
    | some v => (LookupResult.str (jdisplay (some v)), c)
    | none =>
      let result := fetchBondNameInternal api.snapshot
      (result, cachePut c (ticker ++ "_name") (nameCacheVal result))

/-- `GET_COUPON_VALUE` (lines 314-333); needs the current date for the
stage-2 bondization scan. -/
def GET_COUPON_VALUE (c : Cache) (ticker : String) (api : Api) (today : Nat) :
    LookupResult × Cache :=
  if jsBlank ticker then (LookupResult.null, c)
  else
    match c (ticker ++ "_coupon_value_v3") with
    | some v => (deserializeResult v, c)
    | none =>
      let result := fetchCouponValueInternal api.snapshot api.bondization today
      (result, cachePut c (ticker ++ "_coupon_value_v3") (serializeResult result))

/-- `GET_MATURITY_DATE` (lines 391-413); the cache-hit path mirrors
`GET_NEXT_COUPON`. -/
def GET_MATURITY_DATE (c : Cache) (ticker : String) (api : Api) : LookupResult × Cache :=
  if jsBlank ticker then (LookupResult.null, c)
  else
    match c (ticker ++ "_maturity") with
    | some v =>
      (if truthy (some v) then LookupResult.dateObj (newDate v)
       else LookupResult.str "Нет данных", c)
    | none =>
      let result := fetchMaturityDateInternal api.snapshot
      (result, cachePut c (ticker ++ "_maturity") (serializeResult result))

/-- `GET_NEAREST_OPTION_DATE` (lines 553-581).  Note: only `!ticker` is
checked (no trim), no cache is consulted or written, and the note
attachment is an external side effect outside the returned value. -/
def GET_NEAREST_OPTION_DATE (c : Cache) (ticker : String) (api : Api) (today : Nat) :
    LookupResult × Cache :=
  if ticker = "" then (LookupResult.str "Укажите тикер", c)
  else
    match fetchBondOptionDatesInternal api.bondization today with
    | LookupResult.str s => (LookupResult.str s, c)
    | LookupResult.obj d _ => (LookupResult.dateObj d, c)
    -- the internal function only produces a string or the event object
    | r => (r, c)

/-! ### Specification-side definitions (worded from the spec / claims, for
the refinement theorems that compare them with the source embedding) -/

/-- From the spec's words, generalized over the initially remembered value:
each record strictly before today (in JS, each record whose date is not
on-or-after today) whose value is non-null, non-NaN and non-zero overwrites
the remembered "last known value"; records from the first on-or-after-today
record on are not examined. -/
def claimLastKnownFrom (today : Nat) (cs : List Coupon) (init : Option ℚ) : Option ℚ :=
  (cs.takeWhile (fun c => ! dateGe c.date today)).foldl
    (fun acc c =>
      match c.value with
      | some (JNum.val q) => if q ≠ 0 then some q else acc
      | _ => acc) init

/-- The remembered "last known value" of the claim (nothing remembered
initially). -/
def claimLastKnown (today : Nat) (cs : List Coupon) : Option ℚ :=
  claimLastKnownFrom today cs none

/-- The claim's scan behaviour, generalized over the initially remembered
value. -/
def couponClaimSpecFrom (today : Nat) (cs : List Coupon) (init : Option ℚ) : LookupResult :=
  match cs.dropWhile (fun c => ! dateGe c.date today) with
  | c :: _ =>
    match c.value with
    | some (JNum.val q) =>
      if q ≠ 0 then LookupResult.num (JNum.val q)
      else couponScanFinish (claimLastKnownFrom today cs init)
    | _ => couponScanFinish (claimLastKnownFrom today cs init)
  | [] => couponScanFinish (claimLastKnownFrom today cs init)

/-- From the spec's words: the scan returns, at the first record dated
on-or-after today, that record's value when it is non-null/non-NaN/non-zero;
otherwise (and also when no such record exists) the remembered last-known
past value if any, else the "coupon undetermined" string — never examining
records past the first on-or-after one. -/
def couponClaimSpec (today : Nat) (cs : List Coupon) : LookupResult :=
  couponClaimSpecFrom today cs none

/-- From the spec's words: the first non-null-and-defined value of an
ordered candidate list. -/
def firstDefined : List (Option JVal) → Option JVal
  | [] => none
  | a :: rest => if nullish a then firstDefined rest else a

/-- From the spec's words: the price is `parseFloat` of the first
non-null/defined value among [marketdata.LAST, marketdata.CLOSEPRICE,
securities.PREVLEGALCLOSEPRICE, securities.PREVPRICE] of the first rows,
else the "price not found" string. -/
def priceClaimSpec (mdCols : List String) (mdRow : List JVal)
    (secCols : List String) (secRow : List JVal) : LookupResult :=
  match firstDefined
      [cellAt mdRow (colIndex mdCols "LAST"),
       cellAt mdRow (colIndex mdCols "CLOSEPRICE"),
       cellAt secRow (colIndex secCols "PREVLEGALCLOSEPRICE"),
       cellAt secRow (colIndex secCols "PREVPRICE")] with
  | some v => LookupResult.num (parseFloat v)
  | none => LookupResult.str "Цена не найдена"

/-- From the spec's words: the minimum date of a merged event set
(`none` for the empty set). -/
def claimMinDate : List BondEvent → Option Nat
  | [] => none
  | e :: es => some (es.foldl (fun m x => min m x.date) e.date)

/-- From the spec's words: the nearest-event resolver on a successfully
fetched bondization document returns the "no offers/amortizations" string
when the merged filtered set is empty, and otherwise the minimum date of the
merged set together with the note (the de-duplicated descriptions in
insertion-then-sorted order, then a final line naming the nearest event). -/
def eventsClaimSpec (amort offers : Option RawBlock) (today : Nat) : LookupResult :=
  let evs := amortEvents amort today ++ offerEvents offers today
  match claimMinDate evs with
  | none => LookupResult.str "Нет оферт/аморт."
  | some m =>
    let sorted := sortEvents evs
    let nearestDesc := (sorted.headD { date := 0, type := "", description := "" }).description
    LookupResult.obj (some m)
      (String.intercalate "\n" (dedupFirst (sorted.map (·.description)))
        ++ "\n\nБлижайшая: " ++ nearestDesc)

/-! ### Concrete example inputs -/

/-- The spec's price example: `marketdata = {LAST: null, CLOSEPRICE: 101.5}`,
`securities = {PREVPRICE: 99}`. -/
def examplePriceDoc : SnapshotDoc :=
  { marketdata := some { columns := some ["LAST", "CLOSEPRICE"]
                         data := some [[JVal.null, JVal.num (203 / 2)]] }
    securities := some { columns := some ["PREVPRICE"]
                         data := some [[JVal.num 99]] } }

/-- The spec's coupon-schedule example as a bondization document:
coupons (yesterday, 50), (today, 0), (tomorrow, 60) around 2024-01-10. -/
def exampleCouponsDoc : BondizationDoc :=
  { coupons := some { columns := some ["coupondate", "value"]
                      data := some [[JVal.str "2024-01-09", JVal.num 50],
                                    [JVal.str "2024-01-10", JVal.num 0],
                                    [JVal.str "2024-01-11", JVal.num 60]] }
    amortizations := none
    offers := none }

/-- The spec's nearest-event example: one amortization dated in 5 days and
one offer dated in 10 days (today = 2024-01-10). -/
def exampleEventsDoc : BondizationDoc :=
  { coupons := none
    amortizations := some { columns := some ["amortdate"]
                            data := some [[JVal.str "2024-01-15"]] }
    offers := some { columns := some ["offerdate"]
                     data := some [[JVal.str "2024-01-20"]] } }

/-- An empty bondization document: every block present but with no rows, so
the nearest-event resolver finds no events. -/
def emptyEventsDoc : BondizationDoc :=
  { coupons := none
    amortizations := some { columns := some ["amortdate"], data := some [] }
    offers := some { columns := some ["offerdate"], data := some [] } }

/-- An HTTP-200 snapshot outcome with the given marketdata block and a
securities block with the given columns and rows. -/
def snapshotWith (md : Option RawBlock) (cols : List String) (rows : List (List JVal)) :
    FetchOutcome SnapshotDoc :=
  FetchOutcome.resp 200 (Except.ok
    { marketdata := md, securities := some { columns := some cols, data := some rows } })

/-- A bondization document whose scan yields 60: a single future coupon. -/
def exampleFutureCouponDoc : BondizationDoc :=
  { coupons := some { columns := some ["coupondate", "value"]
                      data := some [[JVal.str "2024-06-10", JVal.num 60]] }
    amortizations := none
    offers := none }

/-! ## Theorems -/

/-- The scan loop agrees with the claim's takeWhile/dropWhile description
for every accumulator value. -/
lemma couponScanAux_eq (today : Nat) :
    ∀ (cs : List Coupon) (acc : Option ℚ),
      couponScanAux today cs acc = couponClaimSpecFrom today cs acc := by
  intro cs
  induction cs with
  | nil => intro acc; rfl
  | cons c rest ih =>
    intro acc
    cases h : dateGe c.date today with
    | true =>
      simp only [couponScanAux, couponClaimSpecFrom, claimLastKnownFrom,
        List.dropWhile_cons, List.takeWhile_cons, h, Bool.not_true, if_true,
        Bool.false_eq_true, if_false, List.foldl_nil]
    | false =>
      simp only [couponScanAux, couponClaimSpecFrom, claimLastKnownFrom,
        List.dropWhile_cons, List.takeWhile_cons, h, Bool.not_false, if_true,
        Bool.false_eq_true, if_false, List.foldl_cons]
      rw [ih]
      rfl

/-- **C1**: over any record sequence, the stage-2 coupon scan behaves as the
claim describes (valid strictly-before-today values overwrite the remembered
last-known value; the first on-or-after-today record either supplies the
result or stops the scan, falling back to the remembered value or the
"coupon undetermined" string); and on the spec's concrete example
[(yesterday, 50), (today, 0), (tomorrow, 60)] the whole bondization resolver
returns 50, not 60.  (For a record whose date failed to parse, neither
`d < today` nor `d >= today` holds in JS; the loop's else branch treats it
like a past record, which the formal spec mirrors via "not on-or-after".) -/
theorem C1_coupon_schedule_scan :
    (∀ (today : Nat) (cs : List Coupon), couponScan today cs = couponClaimSpec today cs) ∧
      fetchCouponFromBondization (FetchOutcome.resp 200 (Except.ok exampleCouponsDoc)) 20240110 =
        LookupResult.num (JNum.val 50) := by
  constructor
  · intro today cs
    exact couponScanAux_eq today cs none
  · rfl

/-- A value that is not nullish is `some` of a non-null scalar. -/
lemma exists_of_not_nullish (x : Option JVal) (hx : nullish x = false) :
    ∃ v, x = some v := by
  cases x with
  | none => simp [nullish] at hx
  | some v => exact ⟨v, rfl⟩

/-- `try`/`catch` around a three-way branch of plain returns is the branch
itself. -/
lemma tryCatch_ite3 (P Q : Prop) [Decidable P] [Decidable Q]
    (x y z : LookupResult) (h : String → LookupResult) :
    tryCatch (if P then Except.ok x else if Q then Except.ok y else Except.ok z) h =
      if P then x else if Q then y else z := by
  split_ifs <;> rfl

/-- The two-step `??` chain of the price resolver computes the claim's
"first non-null, defined value" of the four candidates. -/
lemma priceChain_eq (a b c d : Option JVal) :
    (if nullish (coalesce a b) = false then LookupResult.num (parseFloatU (coalesce a b))
     else if nullish (coalesce c d) = true then LookupResult.str "Цена не найдена"
     else LookupResult.num (parseFloatU (coalesce c d))) =
      (match firstDefined [a, b, c, d] with
       | some v => LookupResult.num (parseFloat v)
       | none => LookupResult.str "Цена не найдена") := by
  by_cases ha : nullish a = true
  · by_cases hb : nullish b = true
    · by_cases hc : nullish c = true
      · by_cases hd : nullish d = true
        · simp [coalesce, firstDefined, ha, hb, hc, hd]
        · obtain ⟨v, rfl⟩ := exists_of_not_nullish d (by simpa using hd)
          simp [coalesce, firstDefined, ha, hb, hc, hd, parseFloatU]
      · obtain ⟨v, rfl⟩ := exists_of_not_nullish c (by simpa using hc)
        simp [coalesce, firstDefined, ha, hb, hc, parseFloatU]
    · obtain ⟨v, rfl⟩ := exists_of_not_nullish b (by simpa using hb)
      simp [coalesce, firstDefined, ha, hb, parseFloatU]
  · obtain ⟨v, rfl⟩ := exists_of_not_nullish a (by simpa using ha)
    simp [coalesce, firstDefined, ha, parseFloatU]

/-- **C2**: on an HTTP-200 snapshot whose `marketdata` and `securities`
blocks are both present and non-empty, the price resolver returns
`parseFloat` of the first non-null/defined value in the order
[marketdata.LAST, marketdata.CLOSEPRICE, securities.PREVLEGALCLOSEPRICE,
securities.PREVPRICE], and the "price not found" string when all four are
null or absent. -/
theorem C2_price_ordered_fallback
    (mdCols secCols : List String) (mdRows secRows : List (List JVal))
    (hmd : mdRows ≠ []) (hsec : secRows ≠ []) :
    fetchSinglePriceInternal (FetchOutcome.resp 200 (Except.ok
        { marketdata := some { columns := some mdCols, data := some mdRows }
          securities := some { columns := some secCols, data := some secRows } })) =
      priceClaimSpec mdCols (headRow mdRows) secCols (headRow secRows) := by
  have hlen : ¬(mdRows.length = 0 ∨ secRows.length = 0) := by
    simp [List.length_eq_zero, hmd, hsec]
  simp only [fetchSinglePriceInternal, fetchPriceBody, priceClaimSpec]
  rw [if_neg (by simp), if_neg hlen, tryCatch_ite3]
  exact priceChain_eq _ _ _ _

/-- Witness for C2, at the spec's example
(`marketdata = {LAST: null, CLOSEPRICE: 101.5}`,
`securities = {PREVPRICE: 99}`): the resolver returns 101.5. -/
theorem C2_price_ordered_fallback_witness :
    fetchSinglePriceInternal (FetchOutcome.resp 200 (Except.ok examplePriceDoc)) =
      LookupResult.num (JNum.val (203 / 2)) := by
  have h := C2_price_ordered_fallback ["LAST", "CLOSEPRICE"] ["PREVPRICE"]
    [[JVal.null, JVal.num (203 / 2)]] [[JVal.num 99]]
    (by decide) (by decide)
  exact h.trans rfl

/-- `try`/`catch` around a plain return. -/
lemma tryCatch_ok (r : LookupResult) (h : String → LookupResult) :
    tryCatch (Except.ok r) h = r := rfl

/-- **C5**: with a present, non-empty securities block, the coupon-value
resolver falls through to the bondization feed (stage 2) when the
COUPONVALUE column is absent, when its value is null/undefined, and when its
parsed numeric value is exactly zero; a value whose parse is non-zero (in
the JS sense `val !== 0`) is returned immediately, independently of what the
bondization endpoint would answer (no second fetch). -/
theorem C5_coupon_value_stage2
    (md : Option RawBlock) (cols : List String) (rows : List (List JVal))
    (hrows : rows ≠ []) (bond bond' : FetchOutcome BondizationDoc) (today : Nat) :
    (colIndex cols "COUPONVALUE" = none →
      fetchCouponValueInternal (snapshotWith md cols rows) bond today =
        fetchCouponFromBondization bond today) ∧
    (∀ i, colIndex cols "COUPONVALUE" = some i →
      nullish (cellAt (headRow rows) (some i)) = true →
      fetchCouponValueInternal (snapshotWith md cols rows) bond today =
        fetchCouponFromBondization bond today) ∧
    (∀ i, colIndex cols "COUPONVALUE" = some i →
      parseFloatU (cellAt (headRow rows) (some i)) = JNum.val 0 →
      fetchCouponValueInternal (snapshotWith md cols rows) bond today =
        fetchCouponFromBondization bond today) ∧
    (∀ i, colIndex cols "COUPONVALUE" = some i →
      nullish (cellAt (headRow rows) (some i)) = false →
      parseFloatU (cellAt (headRow rows) (some i)) ≠ JNum.val 0 →
      fetchCouponValueInternal (snapshotWith md cols rows) bond today =
          LookupResult.num (parseFloatU (cellAt (headRow rows) (some i))) ∧
        fetchCouponValueInternal (snapshotWith md cols rows) bond today =
          fetchCouponValueInternal (snapshotWith md cols rows) bond' today) := by
  have hlen : ¬(rows.length = 0) := by simp [List.length_eq_zero, hrows]
  refine ⟨?_, ?_, ?_, ?_⟩
  · intro hnone
    simp only [fetchCouponValueInternal, fetchCouponValueBody, snapshotWith]
    rw [if_neg (by simp), if_neg hlen, hnone, tryCatch_ok]
  · intro i hi hnullish
    simp only [fetchCouponValueInternal, fetchCouponValueBody, snapshotWith]
    rw [if_neg (by simp), if_neg hlen, hi]
    dsimp only []
    rw [if_neg (by simp [hnullish]), tryCatch_ok]
  · intro i hi hzero
    have hnn : nullish (cellAt (headRow rows) (some i)) = false := by
      cases hcell : cellAt (headRow rows) (some i) with
      | none => rw [hcell] at hzero; simp [parseFloatU] at hzero
      | some v =>
        cases v with
        | null => rw [hcell] at hzero; simp [parseFloatU, parseFloat] at hzero
        | num q => simp [hcell, nullish]
        | str s => simp [hcell, nullish]
    simp only [fetchCouponValueInternal, fetchCouponValueBody, snapshotWith]
    rw [if_neg (by simp), if_neg hlen, hi]
    dsimp only []
    rw [if_pos (by simp [hnn]), if_neg (by simp [hzero]), tryCatch_ok]
  · intro i hi hnn hnz
    have key : ∀ b : FetchOutcome BondizationDoc,
        fetchCouponValueInternal (snapshotWith md cols rows) b today =
          LookupResult.num (parseFloatU (cellAt (headRow rows) (some i))) := by
      intro b
      simp only [fetchCouponValueInternal, fetchCouponValueBody, snapshotWith]
      rw [if_neg (by simp), if_neg hlen, hi]
      dsimp only []
      rw [if_pos (by simp [hnn]), if_pos hnz, tryCatch_ok]
    exact ⟨key bond, (key bond).trans (key bond').symm⟩

/-- Witness for C5: a zero COUPONVALUE is resolved through the bondization
feed (returning that feed's 60), while a non-zero COUPONVALUE of 35 is
returned directly. -/
theorem C5_coupon_value_stage2_witness :
    fetchCouponValueInternal (snapshotWith none ["COUPONVALUE"] [[JVal.num 0]])
        (FetchOutcome.resp 200 (Except.ok exampleFutureCouponDoc)) 20240110 =
      LookupResult.num (JNum.val 60) ∧
    fetchCouponValueInternal (snapshotWith none ["COUPONVALUE"] [[JVal.num 35]])
        (FetchOutcome.resp 200 (Except.ok exampleFutureCouponDoc)) 20240110 =
      LookupResult.num (JNum.val 35) := by
  constructor
  · have h := (C5_coupon_value_stage2 none ["COUPONVALUE"] [[JVal.num 0]]
      (by decide) (FetchOutcome.resp 200 (Except.ok exampleFutureCouponDoc))
      (FetchOutcome.throws "unused") 20240110).2.2.1 0 rfl rfl
    exact h.trans rfl
  · have h := ((C5_coupon_value_stage2 none ["COUPONVALUE"] [[JVal.num 35]]
      (by decide) (FetchOutcome.resp 200 (Except.ok exampleFutureCouponDoc))
      (FetchOutcome.throws "unused") 20240110).2.2.2 0 rfl rfl (by decide)).1
    exact h.trans rfl

/-- **C7**: with a present securities block, both the next-coupon-date and
the maturity-date resolvers treat a falsy (null/empty) cell and the literal
sentinel string "0000-00-00" identically, returning the fact-specific
"not available" string; any other cell value is handed to the `Date`
constructor and returned as a Date object. -/
theorem C7_sentinel_dates
    (md : Option RawBlock) (cols : List String) (rows : List (List JVal))
    (hrows : rows ≠ []) :
    (∀ i, colIndex cols "NEXTCOUPON" = some i →
      ((truthy (cellAt (headRow rows) (some i)) = false ∨
          cellAt (headRow rows) (some i) = some (JVal.str "0000-00-00")) →
        fetchNextCouponInternal (snapshotWith md cols rows) =
          LookupResult.str "Нет предстоящих купонов") ∧
      (truthy (cellAt (headRow rows) (some i)) = true →
        cellAt (headRow rows) (some i) ≠ some (JVal.str "0000-00-00") →
        fetchNextCouponInternal (snapshotWith md cols rows) =
          LookupResult.dateObj (newDateU (cellAt (headRow rows) (some i))))) ∧
    (∀ i, colIndex cols "MATDATE" = some i →
      ((truthy (cellAt (headRow rows) (some i)) = false ∨
          cellAt (headRow rows) (some i) = some (JVal.str "0000-00-00")) →
        fetchMaturityDateInternal (snapshotWith md cols rows) =
          LookupResult.str "Дата погашения не определена") ∧
      (truthy (cellAt (headRow rows) (some i)) = true →
        cellAt (headRow rows) (some i) ≠ some (JVal.str "0000-00-00") →
        fetchMaturityDateInternal (snapshotWith md cols rows) =
          LookupResult.dateObj (newDateU (cellAt (headRow rows) (some i))))) := by
  have hlen : ¬(rows.length = 0) := by simp [List.length_eq_zero, hrows]
  constructor
  · intro i hi
    constructor
    · intro hcond
      simp only [fetchNextCouponInternal, fetchNextCouponBody, snapshotWith]
      rw [if_neg (by simp), if_neg hlen, hi]
      dsimp only []
      rw [if_pos hcond, tryCatch_ok]
    · intro ht hne
      simp only [fetchNextCouponInternal, fetchNextCouponBody, snapshotWith]
      rw [if_neg (by simp), if_neg hlen, hi]
      dsimp only []
      rw [if_neg (by simp [ht, hne]), tryCatch_ok]
  · intro i hi
    constructor
    · intro hcond
      simp only [fetchMaturityDateInternal, fetchMaturityDateBody, snapshotWith]
      rw [if_neg (by simp), if_neg hlen, hi]
      dsimp only []
      rw [if_pos hcond, tryCatch_ok]
    · intro ht hne
      simp only [fetchMaturityDateInternal, fetchMaturityDateBody, snapshotWith]
      rw [if_neg (by simp), if_neg hlen, hi]
      dsimp only []
      rw [if_neg (by simp [ht, hne]), tryCatch_ok]

/-- Witness for C7: the sentinel "0000-00-00" in NEXTCOUPON yields the
"no upcoming coupons" string, while an ordinary MATDATE string is parsed
and returned as a Date. -/
theorem C7_sentinel_dates_witness :
    fetchNextCouponInternal (snapshotWith none ["NEXTCOUPON"] [[JVal.str "0000-00-00"]]) =
      LookupResult.str "Нет предстоящих купонов" ∧
    fetchMaturityDateInternal (snapshotWith none ["MATDATE"] [[JVal.str "2026-05-12"]]) =
      LookupResult.dateObj (some 20260512) := by
  constructor
  · exact ((C7_sentinel_dates none ["NEXTCOUPON"] [[JVal.str "0000-00-00"]]
      (by decide)).1 0 rfl).1 (Or.inr rfl)
  · have h := ((C7_sentinel_dates none ["MATDATE"] [[JVal.str "2026-05-12"]]
      (by decide)).2 0 rfl).2 (by decide) (by decide)
    exact h.trans rfl

/-- The head of the insertion sort is a minimum-date element of the list. -/
lemma sortEvents_head_min :
    ∀ (l : List BondEvent), l ≠ [] →
      ∃ h t, sortEvents l = h :: t ∧ h ∈ l ∧ ∀ x ∈ l, h.date ≤ x.date := by
  intro l
  induction l with
  | nil => intro h; exact absurd rfl h
  | cons e es ih =>
    intro _
    cases es with
    | nil =>
      exact ⟨e, [], rfl, List.mem_singleton.2 rfl, by intro x hx; simp at hx; simp [hx]⟩
    | cons f fs =>
      obtain ⟨h, t, hsort, hmem, hmin⟩ := ih (List.cons_ne_nil f fs)
      have hstep : sortEvents (e :: f :: fs) = insertEvent e (h :: t) := by
        have hdef : sortEvents (e :: f :: fs) = insertEvent e (sortEvents (f :: fs)) := rfl
        rw [hdef, hsort]
      cases hle : eventLe e h with
      | true =>
        refine ⟨e, h :: t, by simp [hstep, insertEvent, hle], List.mem_cons_self e _, ?_⟩
        intro x hx
        rcases List.mem_cons.1 hx with hx | hx
        · simp [hx]
        · exact le_trans (by simpa [eventLe] using hle) (hmin x hx)
      | false =>
        refine ⟨h, insertEvent e t, by simp [hstep, insertEvent, hle], List.mem_cons_of_mem e hmem, ?_⟩
        intro x hx
        rcases List.mem_cons.1 hx with hx | hx
        · subst hx
          exact (Nat.lt_of_not_le (by simpa [eventLe] using hle)).le
        · exact hmin x hx

/-- The fold computing the claim's minimum is bounded by its start and by
every element. -/
lemma foldl_min_le :
    ∀ (l : List BondEvent) (a : Nat),
      l.foldl (fun m x => min m x.date) a ≤ a ∧
        ∀ x ∈ l, l.foldl (fun m x => min m x.date) a ≤ x.date := by
  intro l
  induction l with
  | nil => intro a; exact ⟨le_rfl, by intro x hx; simp at hx⟩
  | cons e es ih =>
    intro a
    have h := ih (min a e.date)
    refine ⟨le_trans h.1 (Nat.min_le_left _ _), ?_⟩
    intro x hx
    rcases List.mem_cons.1 hx with hx | hx
    · subst hx; exact le_trans h.1 (Nat.min_le_right _ _)
    · exact h.2 x hx

/-- The fold computing the claim's minimum is attained at the start value or
at some element. -/
lemma foldl_min_mem :
    ∀ (l : List BondEvent) (a : Nat),
      l.foldl (fun m x => min m x.date) a = a ∨
        ∃ x ∈ l, l.foldl (fun m x => min m x.date) a = x.date := by
  intro l
  induction l with
  | nil => intro a; exact Or.inl rfl
  | cons e es ih =>
    intro a
    rcases ih (min a e.date) with h | ⟨x, hx, hval⟩
    · rcases Nat.le_total a e.date with hm | hm
      · exact Or.inl (by simpa [List.foldl_cons, Nat.min_eq_left hm] using h)
      · exact Or.inr ⟨e, List.mem_cons_self e es,
          by simpa [List.foldl_cons, Nat.min_eq_right hm] using h⟩
    · exact Or.inr ⟨x, List.mem_cons_of_mem e hx, by simpa [List.foldl_cons] using hval⟩

/-- **C6**: on every successfully fetched bondization response, the
nearest-event resolver agrees with the claim's description: if the merged
filtered event set (amortizations with a parseable on-or-after-today
`amortdate`, offers with a parseable on-or-after-today `offerdate`) is
empty it returns the "no offers/amortizations" string (never a maturity
fallback); otherwise it returns the minimum date of the merged set together
with the note listing the de-duplicated descriptions in
insertion-then-sorted order and a final line naming the nearest event.  On
the spec's example (an amortization in 5 days, an offer in 10) it returns
the amortization's date with the amortization first and named nearest. -/
theorem C6_nearest_event :
    (∀ (data : BondizationDoc) (today : Nat),
      fetchBondOptionDatesInternal (FetchOutcome.resp 200 (Except.ok data)) today =
        eventsClaimSpec data.amortizations data.offers today) ∧
      fetchBondOptionDatesInternal (FetchOutcome.resp 200 (Except.ok exampleEventsDoc)) 20240110 =
        LookupResult.obj (some 20240115)
          ("Амортизация: 2024-01-15\nОферта: 2024-01-20" ++
            "\n\nБлижайшая: Амортизация: 2024-01-15") := by
  constructor
  · intro data today
    simp only [fetchBondOptionDatesInternal, fetchBondOptionDatesBody, eventsClaimSpec]
    rw [if_neg (by simp)]
    cases hcons : amortEvents data.amortizations today ++ offerEvents data.offers today with
    | nil => rfl
    | cons e es =>
      rw [if_neg (by simp)]
      obtain ⟨h, t, hsort, hmem, hmin⟩ := sortEvents_head_min (e :: es) (List.cons_ne_nil e es)
      have hminval : es.foldl (fun m x => min m x.date) e.date = h.date := by
        have hub := foldl_min_le es e.date
        have hle1 : es.foldl (fun m x => min m x.date) e.date ≤ h.date := by
          rcases List.mem_cons.1 hmem with hm | hm
          · exact hm ▸ hub.1
          · exact hub.2 h hm
        have hle2 : h.date ≤ es.foldl (fun m x => min m x.date) e.date := by
          rcases foldl_min_mem es e.date with hm | ⟨x, hx, hval⟩
          · rw [hm]; exact hmin e (List.mem_cons_self e es)
          · rw [hval]; exact hmin x (List.mem_cons_of_mem e hx)
        exact Nat.le_antisymm hle1 hle2
      rw [hsort]
      dsimp only [claimMinDate]
      rw [hminval]
      rfl
  · rfl

/-- A `try`/`catch` whose body only ever returns proper values and whose
handler returns proper values produces a proper value. -/
lemma isProper_tryCatch (b : Except String LookupResult) (h : String → LookupResult)
    (hb : ∀ r, b = Except.ok r → isProperValue r = true)
    (hh : ∀ m, isProperValue (h m) = true) :
    isProperValue (tryCatch b h) = true := by
  cases b with
  | ok r => exact hb r rfl
  | error m => exact hh m

/-- The coupon scan loop only produces numbers or strings. -/
lemma couponScanAux_proper (today : Nat) :
    ∀ (cs : List Coupon) (acc : Option ℚ),
      isProperValue (couponScanAux today cs acc) = true := by
  intro cs
  induction cs with
  | nil => intro acc; cases acc <;> rfl
  | cons c rest ih =>
    intro acc
    simp only [couponScanAux]
    split
    · cases hv : c.value with
      | none => cases acc <;> rfl
      | some n =>
        cases n with
        | val q =>
          by_cases hq : q = 0
          · simp [hq]; cases acc <;> rfl
          · simp [hq, isProperValue]
        | nan => cases acc <;> rfl
    · exact ih _

/-- Every `Except.ok` the price body produces is a proper value. -/
lemma fetchPriceBody_proper (o : FetchOutcome SnapshotDoc) :
    ∀ r, fetchPriceBody o = Except.ok r → isProperValue r = true := by
  intro r h
  cases o with
  | throws m => simp [fetchPriceBody] at h
  | resp code body =>
    simp only [fetchPriceBody] at h
    repeat' split at h
    all_goals first
      | (cases h; rfl)
      | simp at h

/-- Every `Except.ok` the next-coupon body produces is a proper value. -/
lemma fetchNextCouponBody_proper (o : FetchOutcome SnapshotDoc) :
    ∀ r, fetchNextCouponBody o = Except.ok r → isProperValue r = true := by
  intro r h
  cases o with
  | throws m => simp [fetchNextCouponBody] at h
  | resp code body =>
    simp only [fetchNextCouponBody] at h
    repeat' split at h
    all_goals first
      | (cases h; rfl)
      | simp at h

/-- `jvalToResult` never produces an exception. -/
lemma jvalToResult_proper (v : Option JVal) :
    isProperValue (jvalToResult v) = true := by
  cases v with
  | none => rfl
  | some w => cases w <;> rfl

/-- Every `Except.ok` the name body produces is a proper value. -/
lemma fetchBondNameBody_proper (o : FetchOutcome SnapshotDoc) :
    ∀ r, fetchBondNameBody o = Except.ok r → isProperValue r = true := by
  intro r h
  cases o with
  | throws m => simp [fetchBondNameBody] at h
  | resp code body =>
    simp only [fetchBondNameBody] at h
    repeat' split at h
    all_goals first
      | (cases h; rfl)
      | (cases h; exact jvalToResult_proper _)
      | simp at h

/-- Every `Except.ok` the maturity body produces is a proper value. -/
lemma fetchMaturityDateBody_proper (o : FetchOutcome SnapshotDoc) :
    ∀ r, fetchMaturityDateBody o = Except.ok r → isProperValue r = true := by
  intro r h
  cases o with
  | throws m => simp [fetchMaturityDateBody] at h
  | resp code body =>
    simp only [fetchMaturityDateBody] at h
    repeat' split at h
    all_goals first
      | (cases h; rfl)
      | simp at h

/-- Every `Except.ok` the bondization-coupon body produces is a proper
value. -/
lemma fetchBondizationCouponBody_proper (o : FetchOutcome BondizationDoc) (today : Nat) :
    ∀ r, fetchBondizationCouponBody o today = Except.ok r → isProperValue r = true := by
  intro r h
  cases o with
  | throws m => simp [fetchBondizationCouponBody] at h
  | resp code body =>
    simp only [fetchBondizationCouponBody] at h
    repeat' split at h
    all_goals first
      | (cases h; rfl)
      | (cases h; exact couponScanAux_proper _ _ _)
      | simp at h

/-- `fetchCouponFromBondization` always returns a proper value. -/
lemma fetchCouponFromBondization_proper (o : FetchOutcome BondizationDoc) (today : Nat) :
    isProperValue (fetchCouponFromBondization o today) = true :=
  isProper_tryCatch _ _ (fetchBondizationCouponBody_proper o today) (fun _ => rfl)

/-- Every `Except.ok` the coupon-value body produces is a proper value. -/
lemma fetchCouponValueBody_proper (o : FetchOutcome SnapshotDoc)
    (bond : FetchOutcome BondizationDoc) (today : Nat) :
    ∀ r, fetchCouponValueBody o bond today = Except.ok r → isProperValue r = true := by
  intro r h
  cases o with
  | throws m => simp [fetchCouponValueBody] at h
  | resp code body =>
    simp only [fetchCouponValueBody] at h
    repeat' split at h
    all_goals first
      | (cases h; rfl)
      | (cases h; exact fetchCouponFromBondization_proper bond today)
      | simp at h

/-- Every `Except.ok` the nearest-event body produces is a proper value. -/
lemma fetchBondOptionDatesBody_proper (o : FetchOutcome BondizationDoc) (today : Nat) :
    ∀ r, fetchBondOptionDatesBody o today = Except.ok r → isProperValue r = true := by
  intro r h
  cases o with
  | throws m => simp [fetchBondOptionDatesBody] at h
  | resp code body =>
    simp only [fetchBondOptionDatesBody] at h
    repeat' split at h
    all_goals first
      | (cases h; rfl)
      | simp at h

/-- `fetchSinglePriceInternal` always returns a proper value. -/
lemma fetchSinglePriceInternal_proper (o : FetchOutcome SnapshotDoc) :
    isProperValue (fetchSinglePriceInternal o) = true :=
  isProper_tryCatch _ _ (fetchPriceBody_proper o) (fun _ => rfl)

/-- `fetchNextCouponInternal` always returns a proper value. -/
lemma fetchNextCouponInternal_proper (o : FetchOutcome SnapshotDoc) :
    isProperValue (fetchNextCouponInternal o) = true :=
  isProper_tryCatch _ _ (fetchNextCouponBody_proper o) (fun _ => rfl)

/-- `fetchBondNameInternal` always returns a proper value. -/
lemma fetchBondNameInternal_proper (o : FetchOutcome SnapshotDoc) :
    isProperValue (fetchBondNameInternal o) = true :=
  isProper_tryCatch _ _ (fetchBondNameBody_proper o) (fun _ => rfl)

/-- `fetchMaturityDateInternal` always returns a proper value. -/
lemma fetchMaturityDateInternal_proper (o : FetchOutcome SnapshotDoc) :
    isProperValue (fetchMaturityDateInternal o) = true :=
  isProper_tryCatch _ _ (fetchMaturityDateBody_proper o) (fun _ => rfl)

/-- `fetchCouponValueInternal` always returns a proper value. -/
lemma fetchCouponValueInternal_proper (o : FetchOutcome SnapshotDoc)
    (bond : FetchOutcome BondizationDoc) (today : Nat) :
    isProperValue (fetchCouponValueInternal o bond today) = true :=
  isProper_tryCatch _ _ (fetchCouponValueBody_proper o bond today) (fun _ => rfl)

/-- `fetchBondOptionDatesInternal` always returns a proper value. -/
lemma fetchBondOptionDatesInternal_proper (o : FetchOutcome BondizationDoc) (today : Nat) :
    isProperValue (fetchBondOptionDatesInternal o today) = true :=
  isProper_tryCatch _ _ (fetchBondOptionDatesBody_proper o today) (fun _ => rfl)

/-- Deserializing a cached JSON value gives a proper value. -/
lemma deserializeResult_proper (v : JVal) :
    isProperValue (deserializeResult v) = true := by
  cases v <;> rfl

/-- **C8**: every internal fetch function and every exposed lookup function
is total over every ticker, cache state and API behaviour — transport
exceptions, malformed JSON bodies, non-200 statuses and missing or empty
blocks included — always returning an actual value (number, Date, string,
object or null), never an escaped exception. -/
theorem C8_totality (c : Cache) (t : String) (api : Api) (today : Nat) :
    (isProperValue (fetchSinglePriceInternal api.snapshot) = true ∧
      isProperValue (fetchNextCouponInternal api.snapshot) = true ∧
      isProperValue (fetchBondNameInternal api.snapshot) = true ∧
      isProperValue (fetchMaturityDateInternal api.snapshot) = true ∧
      isProperValue (fetchCouponValueInternal api.snapshot api.bondization today) = true ∧
      isProperValue (fetchCouponFromBondization api.bondization today) = true ∧
      isProperValue (fetchBondOptionDatesInternal api.bondization today) = true) ∧
    (isProperValue (GET_MOEX_PRICE c t api).1 = true ∧
      isProperValue (GET_NEXT_COUPON c t api).1 = true ∧
      isProperValue (GET_MOEX_NAME c t api).1 = true ∧
      isProperValue (GET_COUPON_VALUE c t api today).1 = true ∧
      isProperValue (GET_MATURITY_DATE c t api).1 = true ∧
      isProperValue (GET_NEAREST_OPTION_DATE c t api today).1 = true) := by
  refine ⟨⟨fetchSinglePriceInternal_proper _, fetchNextCouponInternal_proper _,
    fetchBondNameInternal_proper _, fetchMaturityDateInternal_proper _,
    fetchCouponValueInternal_proper _ _ _, fetchCouponFromBondization_proper _ _,
    fetchBondOptionDatesInternal_proper _ _⟩, ?_, ?_, ?_, ?_, ?_, ?_⟩
  · simp only [GET_MOEX_PRICE]
    split
    · rfl
    · split
      · exact deserializeResult_proper _
      · exact fetchSinglePriceInternal_proper _
  · simp only [GET_NEXT_COUPON]
    split
    · rfl
    · split
      · split <;> rfl
      · exact fetchNextCouponInternal_proper _
  · simp only [GET_MOEX_NAME]
    split
    · rfl
    · split
      · rfl
      · exact fetchBondNameInternal_proper _
  · simp only [GET_COUPON_VALUE]
    split
    · rfl
    · split
      · exact deserializeResult_proper _
      · exact fetchCouponValueInternal_proper _ _ _
  · simp only [GET_MATURITY_DATE]
    split
    · rfl
    · split
      · split <;> rfl
      · exact fetchMaturityDateInternal_proper _
  · simp only [GET_NEAREST_OPTION_DATE]
    split
    · rfl
    · have hint := fetchBondOptionDatesInternal_proper api.bondization today
      cases hX : fetchBondOptionDatesInternal api.bondization today with
      | exception m => rw [hX] at hint; simp [isProperValue] at hint
      | null => rfl
      | num n => rfl
      | dateObj d => rfl
      | str s => rfl
      | obj d note => rfl

/-- **C10**: on a cache hit, `GET_NEXT_COUPON` and `GET_MATURITY_DATE` feed
every truthy deserialized cached value to the `Date` constructor; when the
cached value was an error string (which parses to an Invalid Date), the hit
returns an Invalid Date object rather than the original string, and a falsy
cached value is returned as the literal string "Нет данных". -/
theorem C10_cache_hit_date_constructor
    (c : Cache) (t : String) (api : Api) (hnb : jsBlank t = false) :
    (∀ v, c (t ++ "_coupon") = some v → truthy (some v) = true →
      GET_NEXT_COUPON c t api = (LookupResult.dateObj (newDate v), c)) ∧
    (∀ v, c (t ++ "_coupon") = some v → truthy (some v) = false →
      GET_NEXT_COUPON c t api = (LookupResult.str "Нет данных", c)) ∧
    (∀ s, c (t ++ "_coupon") = some (JVal.str s) → s ≠ "" → parseDate s = none →
      GET_NEXT_COUPON c t api = (LookupResult.dateObj none, c) ∧
        (GET_NEXT_COUPON c t api).1 ≠ LookupResult.str s) ∧
    (∀ v, c (t ++ "_maturity") = some v → truthy (some v) = true →
      GET_MATURITY_DATE c t api = (LookupResult.dateObj (newDate v), c)) ∧
    (∀ v, c (t ++ "_maturity") = some v → truthy (some v) = false →
      GET_MATURITY_DATE c t api = (LookupResult.str "Нет данных", c)) ∧
    (∀ s, c (t ++ "_maturity") = some (JVal.str s) → s ≠ "" → parseDate s = none →
      GET_MATURITY_DATE c t api = (LookupResult.dateObj none, c) ∧
        (GET_MATURITY_DATE c t api).1 ≠ LookupResult.str s) := by
  have hcoupon : ∀ v, c (t ++ "_coupon") = some v →
      GET_NEXT_COUPON c t api =
        ((if truthy (some v) then LookupResult.dateObj (newDate v)
          else LookupResult.str "Нет данных"), c) := by
    intro v hv
    simp only [GET_NEXT_COUPON]
    rw [if_neg (by simp [hnb]), hv]
  have hmat : ∀ v, c (t ++ "_maturity") = some v →
      GET_MATURITY_DATE c t api =
        ((if truthy (some v) then LookupResult.dateObj (newDate v)
          else LookupResult.str "Нет данных"), c) := by
    intro v hv
    simp only [GET_MATURITY_DATE]
    rw [if_neg (by simp [hnb]), hv]
  refine ⟨?_, ?_, ?_, ?_, ?_, ?_⟩
  · intro v hv ht
    rw [hcoupon v hv, if_pos ht]
  · intro v hv ht
    rw [hcoupon v hv, if_neg (by simp [ht])]
  · intro s hv hs hpd
    have ht : truthy (some (JVal.str s)) = true := by simp [truthy, hs]
    have h1 := hcoupon (JVal.str s) hv
    rw [if_pos ht] at h1
    have hnd : newDate (JVal.str s) = none := by simp [newDate, hpd]
    rw [hnd] at h1
    exact ⟨h1, by rw [h1]; simp⟩
  · intro v hv ht
    rw [hmat v hv, if_pos ht]
  · intro v hv ht
    rw [hmat v hv, if_neg (by simp [ht])]
  · intro s hv hs hpd
    have ht : truthy (some (JVal.str s)) = true := by simp [truthy, hs]
    have h1 := hmat (JVal.str s) hv
    rw [if_pos ht] at h1
    have hnd : newDate (JVal.str s) = none := by simp [newDate, hpd]
    rw [hnd] at h1
    exact ⟨h1, by rw [h1]; simp⟩

/-- Witness for C10: with the error string "Тикер не найден" cached under
both date keys, both functions return an Invalid Date object (and not the
cached error string), exactly as the claim describes. -/
theorem C10_cache_hit_date_constructor_witness :
    GET_NEXT_COUPON
        (fun k => if k = "T_coupon" ∨ k = "T_maturity"
          then some (JVal.str "Тикер не найден") else none)
        "T" (Api.mk (FetchOutcome.throws "x") (FetchOutcome.throws "x")) =
      (LookupResult.dateObj none,
        fun k => if k = "T_coupon" ∨ k = "T_maturity"
          then some (JVal.str "Тикер не найден") else none) ∧
    GET_MATURITY_DATE
        (fun k => if k = "T_coupon" ∨ k = "T_maturity"
          then some (JVal.str "Тикер не найден") else none)
        "T" (Api.mk (FetchOutcome.throws "x") (FetchOutcome.throws "x")) =
      (LookupResult.dateObj none,
        fun k => if k = "T_coupon" ∨ k = "T_maturity"
          then some (JVal.str "Тикер не найден") else none) := by
  have h := C10_cache_hit_date_constructor
    (fun k => if k = "T_coupon" ∨ k = "T_maturity"
      then some (JVal.str "Тикер не найден") else none)
    "T" (Api.mk (FetchOutcome.throws "x") (FetchOutcome.throws "x")) (by decide)
  exact ⟨(h.2.2.1 "Тикер не найден" (by decide) (by decide) (by decide)).1,
    (h.2.2.2.2.2 "Тикер не найден" (by decide) (by decide) (by decide)).1⟩

/-- Counterexample to C3 as stated: `GET_NEAREST_OPTION_DATE` does not
return null for the empty ticker (it returns the "specify ticker" string),
and for a whitespace-only ticker it does consult the network — two
different API states yield two different results. -/
theorem C3_blank_ticker_counterexample :
    (GET_NEAREST_OPTION_DATE emptyCache ""
        (Api.mk (FetchOutcome.throws "x") (FetchOutcome.throws "x")) 20240110).1 =
      LookupResult.str "Укажите тикер" ∧
    (GET_NEAREST_OPTION_DATE emptyCache ""
        (Api.mk (FetchOutcome.throws "x") (FetchOutcome.throws "x")) 20240110).1 ≠
      LookupResult.null ∧
    (GET_NEAREST_OPTION_DATE emptyCache " "
        (Api.mk (FetchOutcome.throws "x") (FetchOutcome.throws "boom")) 20240110).1 ≠
      (GET_NEAREST_OPTION_DATE emptyCache " "
        (Api.mk (FetchOutcome.throws "x")
          (FetchOutcome.resp 200 (Except.ok emptyEventsDoc))) 20240110).1 := by
  refine ⟨rfl, by decide, ?_⟩
  show LookupResult.str "Ошибка скрипта: boom" ≠ LookupResult.str "Нет оферт/аморт."
  decide

/-- **C3 (amended)**: the five cached lookup functions
(`GET_MOEX_PRICE`, `GET_NEXT_COUPON`, `GET_MOEX_NAME`, `GET_COUPON_VALUE`,
`GET_MATURITY_DATE`) return null for every blank or whitespace-only ticker,
leaving the cache untouched and independently of the API state (no network
request); `GET_NEAREST_OPTION_DATE`, however, short-circuits (to the
"specify ticker" string, not null) only for the empty ticker, and treats a
whitespace-only ticker as a normal lookup. -/
theorem C3_blank_ticker (c : Cache) (t : String) (api : Api) (today : Nat)
    (hb : jsBlank t = true) :
    GET_MOEX_PRICE c t api = (LookupResult.null, c) ∧
    GET_NEXT_COUPON c t api = (LookupResult.null, c) ∧
    GET_MOEX_NAME c t api = (LookupResult.null, c) ∧
    GET_COUPON_VALUE c t api today = (LookupResult.null, c) ∧
    GET_MATURITY_DATE c t api = (LookupResult.null, c) ∧
    (t = "" → GET_NEAREST_OPTION_DATE c t api today = (LookupResult.str "Укажите тикер", c)) := by
  refine ⟨?_, ?_, ?_, ?_, ?_, ?_⟩
  · simp [GET_MOEX_PRICE, hb]
  · simp [GET_NEXT_COUPON, hb]
  · simp [GET_MOEX_NAME, hb]
  · simp [GET_COUPON_VALUE, hb]
  · simp [GET_MATURITY_DATE, hb]
  · intro ht; subst ht; rfl

/-- Witness for the amended C3 at the whitespace-only ticker " ". -/
theorem C3_blank_ticker_witness :
    GET_MOEX_PRICE emptyCache " "
        (Api.mk (FetchOutcome.throws "x") (FetchOutcome.throws "x")) =
      (LookupResult.null, emptyCache) ∧
    GET_MATURITY_DATE emptyCache " "
        (Api.mk (FetchOutcome.throws "x") (FetchOutcome.throws "x")) =
      (LookupResult.null, emptyCache) := by
  have h := C3_blank_ticker emptyCache " "
    (Api.mk (FetchOutcome.throws "x") (FetchOutcome.throws "x")) 20240110 (by decide)
  exact ⟨h.1, h.2.2.2.2.1⟩

/-- Counterexample to C4 as stated: `GET_NEAREST_OPTION_DATE` does not use
the cache at all — with every key populated it still returns the resolver's
answer rather than any cached value, and with an empty cache it writes
nothing back. -/
theorem C4_cache_facade_counterexample :
    (GET_NEAREST_OPTION_DATE (fun _ => some (JVal.str "cached")) "T"
        (Api.mk (FetchOutcome.throws "x")
          (FetchOutcome.resp 200 (Except.ok emptyEventsDoc))) 20240110).1 =
      LookupResult.str "Нет оферт/аморт." ∧
    LookupResult.str "Нет оферт/аморт." ≠ LookupResult.str "cached" ∧
    (GET_NEAREST_OPTION_DATE emptyCache "T"
        (Api.mk (FetchOutcome.throws "x")
          (FetchOutcome.resp 200 (Except.ok emptyEventsDoc))) 20240110).2 =
      emptyCache := by
  exact ⟨rfl, by decide, rfl⟩

/-- **C4 (amended)**: for a non-blank ticker, each of the five cached
lookup functions first queries the cache under its (ticker, fact-kind) key —
on a hit it answers from the cached entry alone (independently of the API
state, cache unchanged), and on a miss it invokes its resolver and writes
the serialized result back under that key before returning it;
`GET_NEAREST_OPTION_DATE` is the exception: it never reads nor writes the
cache — its result ignores the cache contents and the cache is returned
unchanged. -/
theorem C4_cache_facade (c c2 : Cache) (t : String) (api api2 : Api) (today : Nat)
    (hnb : jsBlank t = false) :
    (((c t).isSome = true →
        (GET_MOEX_PRICE c t api).1 = (GET_MOEX_PRICE c t api2).1 ∧
          (GET_MOEX_PRICE c t api).2 = c) ∧
      (c t = none →
        GET_MOEX_PRICE c t api =
          (fetchSinglePriceInternal api.snapshot,
            cachePut c t (serializeResult (fetchSinglePriceInternal api.snapshot))))) ∧
    (((c (t ++ "_coupon")).isSome = true →
        (GET_NEXT_COUPON c t api).1 = (GET_NEXT_COUPON c t api2).1 ∧
          (GET_NEXT_COUPON c t api).2 = c) ∧
      (c (t ++ "_coupon") = none →
        GET_NEXT_COUPON c t api =
          (fetchNextCouponInternal api.snapshot,
            cachePut c (t ++ "_coupon")
              (serializeResult (fetchNextCouponInternal api.snapshot))))) ∧
    (((c (t ++ "_name")).isSome = true →
        (GET_MOEX_NAME c t api).1 = (GET_MOEX_NAME c t api2).1 ∧
          (GET_MOEX_NAME c t api).2 = c) ∧
      (c (t ++ "_name") = none →
        GET_MOEX_NAME c t api =
          (fetchBondNameInternal api.snapshot,
            cachePut c (t ++ "_name")
              (nameCacheVal (fetchBondNameInternal api.snapshot))))) ∧
    (((c (t ++ "_coupon_value_v3")).isSome = true →
        (GET_COUPON_VALUE c t api today).1 = (GET_COUPON_VALUE c t api2 today).1 ∧
          (GET_COUPON_VALUE c t api today).2 = c) ∧
      (c (t ++ "_coupon_value_v3") = none →
        GET_COUPON_VALUE c t api today =
          (fetchCouponValueInternal api.snapshot api.bondization today,
            cachePut c (t ++ "_coupon_value_v3")
              (serializeResult (fetchCouponValueInternal api.snapshot api.bondization today))))) ∧
    (((c (t ++ "_maturity")).isSome = true →
        (GET_MATURITY_DATE c t api).1 = (GET_MATURITY_DATE c t api2).1 ∧
          (GET_MATURITY_DATE c t api).2 = c) ∧
      (c (t ++ "_maturity") = none →
        GET_MATURITY_DATE c t api =
          (fetchMaturityDateInternal api.snapshot,
            cachePut c (t ++ "_maturity")
              (serializeResult (fetchMaturityDateInternal api.snapshot))))) ∧
    ((GET_NEAREST_OPTION_DATE c t api today).1 =
        (GET_NEAREST_OPTION_DATE c2 t api today).1 ∧
      (GET_NEAREST_OPTION_DATE c t api today).2 = c) := by
  have ht : t ≠ "" := by
    intro h
    subst h
    simp [jsBlank] at hnb
  refine ⟨⟨?_, ?_⟩, ⟨?_, ?_⟩, ⟨?_, ?_⟩, ⟨?_, ?_⟩, ⟨?_, ?_⟩, ?_⟩
  · intro hv
    cases hc : c t with
    | none => rw [hc] at hv; simp at hv
    | some v =>
      constructor
      · simp only [GET_MOEX_PRICE]
        rw [if_neg (by simp [hnb]), if_neg (by simp [hnb]), hc]
      · simp only [GET_MOEX_PRICE]
        rw [if_neg (by simp [hnb]), hc]
  · intro hc
    simp only [GET_MOEX_PRICE]
    rw [if_neg (by simp [hnb]), hc]
  · intro hv
    cases hc : c (t ++ "_coupon") with
    | none => rw [hc] at hv; simp at hv
    | some v =>
      constructor
      · simp only [GET_NEXT_COUPON]
        rw [if_neg (by simp [hnb]), if_neg (by simp [hnb]), hc]
      · simp only [GET_NEXT_COUPON]
        rw [if_neg (by simp [hnb]), hc]
  · intro hc
    simp only [GET_NEXT_COUPON]
    rw [if_neg (by simp [hnb]), hc]
  · intro hv
    cases hc : c (t ++ "_name") with
    | none => rw [hc] at hv; simp at hv
    | some v =>
      constructor
      · simp only [GET_MOEX_NAME]
        rw [if_neg (by simp [hnb]), if_neg (by simp [hnb]), hc]
      · simp only [GET_MOEX_NAME]
        rw [if_neg (by simp [hnb]), hc]
  · intro hc
    simp only [GET_MOEX_NAME]
    rw [if_neg (by simp [hnb]), hc]
  · intro hv
    cases hc : c (t ++ "_coupon_value_v3") with
    | none => rw [hc] at hv; simp at hv
    | some v =>
      constructor
      · simp only [GET_COUPON_VALUE]
        rw [if_neg (by simp [hnb]), if_neg (by simp [hnb]), hc]
      · simp only [GET_COUPON_VALUE]
        rw [if_neg (by simp [hnb]), hc]
  · intro hc
    simp only [GET_COUPON_VALUE]
    rw [if_neg (by simp [hnb]), hc]
  · intro hv
    cases hc : c (t ++ "_maturity") with
    | none => rw [hc] at hv; simp at hv
    | some v =>
      constructor
      · simp only [GET_MATURITY_DATE]
        rw [if_neg (by simp [hnb]), if_neg (by simp [hnb]), hc]
      · simp only [GET_MATURITY_DATE]
        rw [if_neg (by simp [hnb]), hc]
  · intro hc
    simp only [GET_MATURITY_DATE]
    rw [if_neg (by simp [hnb]), hc]
  · constructor
    · simp only [GET_NEAREST_OPTION_DATE]
      rw [if_neg ht, if_neg ht]
      cases fetchBondOptionDatesInternal api.bondization today <;> rfl
    · simp only [GET_NEAREST_OPTION_DATE]
      rw [if_neg ht]
      cases fetchBondOptionDatesInternal api.bondization today <;> rfl

/-- Witness for the amended C4: a miss on `GET_MOEX_PRICE` invokes the
resolver and writes the serialized result back under the ticker key. -/
theorem C4_cache_facade_witness :
    GET_MOEX_PRICE emptyCache "T"
        (Api.mk (FetchOutcome.resp 200 (Except.ok examplePriceDoc)) (FetchOutcome.throws "x")) =
      (LookupResult.num (JNum.val (203 / 2)),
        cachePut emptyCache "T" (JVal.num (203 / 2))) := by
  have h := ((C4_cache_facade emptyCache emptyCache "T"
    (Api.mk (FetchOutcome.resp 200 (Except.ok examplePriceDoc)) (FetchOutcome.throws "x"))
    (Api.mk (FetchOutcome.throws "x") (FetchOutcome.throws "x")) 20240110 (by decide)).1).2 rfl
  exact h.trans rfl

/-- Counterexample to C9 as stated: a lookup's result is not a function of
(ticker, API state, cache state) alone — the coupon-value lookup, with the
ticker, the API responses and the cache all fixed, returns 50 on one
current date and 60 on a later one, because the resolver reads the ambient
`new Date()`. -/
theorem C9_purity_counterexample :
    (GET_COUPON_VALUE emptyCache "T"
        (Api.mk (snapshotWith none ["COUPONVALUE"] [[JVal.num 0]])
          (FetchOutcome.resp 200 (Except.ok exampleCouponsDoc))) 20240110).1 ≠
      (GET_COUPON_VALUE emptyCache "T"
        (Api.mk (snapshotWith none ["COUPONVALUE"] [[JVal.num 0]])
          (FetchOutcome.resp 200 (Except.ok exampleCouponsDoc))) 20240111).1 := by
  show LookupResult.num (JNum.val 50) ≠ LookupResult.num (JNum.val 60)
  decide

/-- **C9 (amended)**: each lookup call is a pure function of (ticker, API
state, cache state, current date): with the date also fixed, any two
invocations agree — the embedding takes no other ambient state. -/
theorem C9_purity (c : Cache) (t : String) (api : Api) (d1 d2 : Nat) (h : d1 = d2) :
    GET_MOEX_PRICE c t api = GET_MOEX_PRICE c t api ∧
    GET_NEXT_COUPON c t api = GET_NEXT_COUPON c t api ∧
    GET_MOEX_NAME c t api = GET_MOEX_NAME c t api ∧
    GET_COUPON_VALUE c t api d1 = GET_COUPON_VALUE c t api d2 ∧
    GET_MATURITY_DATE c t api = GET_MATURITY_DATE c t api ∧
    GET_NEAREST_OPTION_DATE c t api d1 = GET_NEAREST_OPTION_DATE c t api d2 := by
  subst h
  exact ⟨rfl, rfl, rfl, rfl, rfl, rfl⟩

/-- Witness for the amended C9 at a concrete state. -/
theorem C9_purity_witness :
    GET_COUPON_VALUE emptyCache "T"
        (Api.mk (snapshotWith none ["COUPONVALUE"] [[JVal.num 0]])
          (FetchOutcome.resp 200 (Except.ok exampleCouponsDoc))) 20240110 =
      GET_COUPON_VALUE emptyCache "T"
        (Api.mk (snapshotWith none ["COUPONVALUE"] [[JVal.num 0]])
          (FetchOutcome.resp 200 (Except.ok exampleCouponsDoc))) 20240110 :=
  (C9_purity emptyCache "T"
    (Api.mk (snapshotWith none ["COUPONVALUE"] [[JVal.num 0]])
      (FetchOutcome.resp 200 (Except.ok exampleCouponsDoc))) 20240110 20240110 rfl).2.2.2.1

end GsMoex
